import Mathlib

/- Shallow embedding of the evaluation core of the tlnccuwagnf interpreter:
   the runtime object model and conversion layer of dist/lib.js together
   with the recursive expression evaluator of dist/interp.js.  JavaScript
   values are modelled by the inductive type JSVal; mutable variable cells,
   scope objects and runtime objects live in an explicit heap (St).
   Model restrictions, each noted again at its definition: JS numbers are
   restricted to integers plus NaN; numeric parsing of strings covers
   decimal integers.  Plain JS dictionaries are string-keyed maps; for the
   scope objects the names every JS object inherits from the host Object
   prototype are modelled too (the variables branches of the evaluator see
   them through the in operator and member access), while the data maps and
   prototype tables of runtime objects are own-key-only, every claim
   exercising them using concrete ordinary keys. -/

namespace TLang

/-- Node-kind tags of AST nodes.  Modelled from the spec: the tags are
opaque identifiers agreed between parser and evaluator (they live in the
excluded constants module), so they are modelled as a distinct enumeration:
a tag value is never equal to an ordinary string, number or object. -/
inductive NodeKind
  | comment
  | functionCall
  | varIdent
  | varAssign
  | varChange
  | functionPrim
  | stringPrim
  | booleanPrim
  | numberPrim
  | setPropId
  | getPropId

/-- JS numbers, restricted to the values the core manipulates: integers and
NaN (general doubles are outside every claim). -/
inductive JNum
  | int (i : Int)
  | nan

/-- Constructor tags of runtime objects; per the model invariant they are
fixed at creation (lib.js assigns the field named double-underscore
constructor once, in each class constructor). -/
inductive Ctor
  | lobject
  | larray
  | lfunction
deriving DecidableEq

/-- JavaScript values flowing through the evaluator.  A StringPrim,
BooleanPrim or NumberPrim instance is modelled by the wrapper constructors
sprim, bprim, nprim carrying the stored (already coerced) field, since no
code in the core mutates a wrapper after construction.  A runtime object
(LObject, LArray, LFunction) is a token carrying its constructor tag and a
heap id. -/
inductive JSVal
  | undefined
  | jsnull
  | bool (b : Bool)
  | num (n : JNum)
  | str (s : String)
  | kind (k : NodeKind)
  | sprim (s : String)
  | bprim (b : Bool)
  | nprim (n : JNum)
  | arr (xs : List JSVal)
  | token (c : Ctor) (id : Nat)

/-- Rendering of a JNum by the host String conversion. -/
def jnumToString : JNum → String
  | .int i => toString i
  | .nan => "NaN"

/-- Placeholder rendering of the opaque node-kind tags (never reached by a
claim; present only so that the String conversion is total). -/
def kindName : NodeKind → String
  | .comment => "COMMENT"
  | .functionCall => "FUNCTION_CALL"
  | .varIdent => "VARIABLE_IDENTIFIER"
  | .varAssign => "VARIABLE_ASSIGN"
  | .varChange => "VARIABLE_CHANGE"
  | .functionPrim => "FUNCTION_PRIM"
  | .stringPrim => "STRING_PRIM"
  | .booleanPrim => "BOOLEAN_PRIM"
  | .numberPrim => "NUMBER_PRIM"
  | .setPropId => "SET_PROP_USING_IDENTIFIER"
  | .getPropId => "GET_PROP_USING_IDENTIFIER"

/-- Host String conversion of every non-array value.  StringPrim stringifies
to its stored string (its toString returns this.str); BooleanPrim to the
angle-bracketed form its toString builds; NumberPrim to its number; an
LFunction instance to the fixed string its toString returns; other runtime
objects to the default host object rendering. -/
def jsAtomStr : JSVal → String
  | .undefined => "undefined"
  | .jsnull => "null"
  | .bool b => if b then "true" else "false"
  | .num n => jnumToString n
  | .str s => s
  | .kind k => kindName k
  | .sprim s => s
  | .bprim b => if b then "<Boolean true>" else "<Boolean false>"
  | .nprim n => jnumToString n
  | .arr _ => ""
  | .token c _ =>
    match c with
    | .lfunction => "<Object Function>"
    | _ => "[object Object]"

mutual

/-- Host Array toString: elements joined by commas. -/
def jsJoin : List JSVal → String
  | [] => ""
  | [x] => jsHd x
  | x :: rest => jsHd x ++ "," ++ jsJoin rest

/-- Rendering of one array element inside the host Array toString:
undefined and null render empty, nested arrays recursively. -/
def jsHd : JSVal → String
  | .undefined => ""
  | .jsnull => ""
  | .arr ys => jsJoin ys
  | y => jsAtomStr y

end

/-- Host String conversion (the String function applied to a value); an
array renders as its elements joined by commas. -/
def jsToString : JSVal → String
  | .arr xs => jsJoin xs
  | v => jsAtomStr v

/-- Host numeric parsing of strings, restricted to decimal integers: the
empty string parses to zero, anything that is not an optionally signed
decimal integer to NaN. -/
def jsParseNum (s : String) : JNum :=
  if s = "" then .int 0
  else
    match s.toInt? with
    | some i => .int i
    | none => .nan

/-- Host Number conversion.  Wrapper instances convert through their
valueOf (BooleanPrim and NumberPrim) or toString (StringPrim); runtime
objects stringify to a non-numeric string and give NaN; arrays convert via
their joined string rendering. -/
def jsToNumber : JSVal → JNum
  | .undefined => .nan
  | .jsnull => .int 0
  | .bool b => .int (if b then 1 else 0)
  | .num n => n
  | .str s => jsParseNum s
  | .sprim s => jsParseNum s
  | .bprim b => .int (if b then 1 else 0)
  | .nprim n => n
  | .token _ _ => .nan
  | .kind _ => .nan
  | .arr xs => jsParseNum (jsToString (.arr xs))

/-- Host Boolean conversion (truthiness): objects, wrapper instances and
arrays are truthy; NaN, zero, the empty string, undefined and null falsy. -/
def jsToBool : JSVal → Bool
  | .undefined => false
  | .jsnull => false
  | .bool b => b
  | .num n =>
    match n with
    | .int i => if i = 0 then false else true
    | .nan => false
  | .str s => !s.isEmpty
  | _ => true

/-- lib.js toJString: a StringPrim yields its stored string (its str getter),
anything else goes through the host String conversion. -/
def toJString : JSVal → String
  | .sprim s => s
  | v => jsToString v

/-- lib.js toJBoolean: true exactly when the argument is a BooleanPrim
whose stored value is true; every other value, including the raw host
boolean true, gives false. -/
def toJBoolean : JSVal → Bool
  | .bprim b => b
  | _ => false

/-- lib.js toJNumber: a NumberPrim yields its stored number, anything else
goes through the host Number conversion. -/
def toJNumber : JSVal → JNum
  | .nprim n => n
  | v => jsToNumber v

/-- lib.js toLString: constructs a StringPrim, whose setter stores the host
String coercion of the argument. -/
def toLString (v : JSVal) : JSVal := .sprim (jsToString v)

/-- lib.js toLBoolean: constructs a BooleanPrim, whose setter stores the
host Boolean coercion of the argument. -/
def toLBoolean (v : JSVal) : JSVal := .bprim (jsToBool v)

/-- lib.js toLNumber: constructs a NumberPrim, whose setter stores the host
Number coercion of the argument. -/
def toLNumber (v : JSVal) : JSVal := .nprim (jsToNumber v)

/-- StringPrim str setter: stores the host String coercion of the written
value in the backing field. -/
def stringPrimSetStr (v : JSVal) : String := jsToString v

/-- StringPrim str getter: returns the host String coercion of the backing
field (a string, so the coercion is the identity). -/
def stringPrimGetStr (s : String) : String := jsToString (.str s)

/-- BooleanPrim bool setter: stores the host Boolean coercion. -/
def booleanPrimSetBool (v : JSVal) : Bool := jsToBool v

/-- BooleanPrim bool getter: re-coerces the backing field. -/
def booleanPrimGetBool (b : Bool) : Bool := jsToBool (.bool b)

/-- NumberPrim num setter: stores the host Number coercion. -/
def numberPrimSetNum (v : JSVal) : JNum := jsToNumber v

/-- NumberPrim num getter: re-coerces the backing field. -/
def numberPrimGetNum (n : JNum) : JNum := jsToNumber (.num n)

/-- Parameter descriptor from the parser: a name and a passing-mode string
(compared against the literals normal and unevaluated in defaultCall). -/
structure Param where
  name : String
  type : String

/-- Host-implemented callables appearing in the core: the synthetic return
closure of defaultCall (writing into the cell holding the pending return
value of one invocation), the lazy-parameter thunk of defaultCall (closing
over the received argument and the argumentScope field of the function
token), the method-binding wrapper synthesized by defaultGet (calling the
fn of a prototype entry with the receiver prepended), the three prototype
methods of lib.js, and two natives standing for excluded builtins. -/
inductive NativeFn
  | retNF (cell : Nat)
  | lazyNF (value : JSVal) (scope : Option Nat)
  | boundNF (target : Nat) (receiver : Nat)
  | pushNF
  | popNF
  | debugNF
  | printNF
  | tickNF

/-- The fn field of an LFunction: either a host function or the body (the
code value handed to the constructor) of a user-defined function. -/
inductive FnImpl
  | native (nf : NativeFn)
  | code (body : JSVal)

/-- A runtime object in the heap: constructor tag, own data map, and the
LFunction instance fields fn, scopeVariables (a scope-object id, null
until setScopeVariables runs), paramaterList (absent until setParamaters
runs) and argumentScope (no code in the core ever assigns it). -/
structure Obj where
  ctor : Ctor
  data : List (String × JSVal)
  fn : Option FnImpl
  scopeVariables : Option Nat
  paramaterList : Option (List Param)
  argumentScope : Option Nat

/-- Errors propagating out of the evaluator: the InvalidExpressionType
error of interp.js carrying the offending node; the string thrown by the
variable-read branch, modelled structurally as the missing name plus the
key list of the scope (the thrown template interpolates exactly these);
host TypeErrors with their fixed, name-independent message; and fuel
exhaustion of the model (never reached by any claim instance). -/
inductive Err
  | invalidExpressionType (e : JSVal)
  | varNotFound (name : String) (scopeNames : List String)
  | typeError (msg : String)
  | outOfFuel

/-- Message of the host TypeError raised by reading index zero of
undefined or null (the dispatcher touches expression index zero first). -/
def idxOfUndefinedMsg : String := "Cannot read property 0 of undefined"

/-- Message of the host TypeError raised by the in operator on undefined
(variable read with no scope object). -/
def inOpUndefinedMsg : String := "Cannot use in operator to search in undefined"

/-- Message of the host TypeError raised by assigning a property on
undefined (variable define with no scope object). -/
def assignOnUndefinedMsg : String := "Cannot set property of undefined"

/-- Message of the host TypeError raised by the variable-change branch
when the name has no cell: setting the value property of undefined.  The
message is a fixed string and does not mention the variable name. -/
def cannotSetValueMsg : String := "Cannot set property value of undefined"

/-- Message of the host TypeError raised because interp.js calls
setArguments on a fresh LFunction while lib.js defines only
setParamaters. -/
def setArgab : String := "fn.setArguments is not a function"

/-- Message of the host TypeError raised by reading length of an absent
paramaterList in defaultCall. -/
def lengthOfUndefinedMsg : String := "Cannot read property length of undefined"

/-- Message of the host TypeError raised by calling map on a non-array in
place of an argument or body list. -/
def mapNotFunctionMsg : String := "map is not a function"

/-- Message of the host TypeError raised by lib.call on a value without a
callable double-underscore call member. -/
def callNotFunctionMsg : String := "object has no call method"

/-- Message of the host TypeError raised by destructuring a non-iterable
first parameter in the synthetic return native. -/
def notIterableMsg : String := "value is not iterable"

/-- Message of the host TypeError raised by the method-binding wrapper
when the fn of the prototype entry is not a host function. -/
def fnNotFunctionMsg : String := "fn is not a function"

/-- Message of the host TypeError raised by the prototype methods when the
receiver has no data member. -/
def dataOfNonObjectMsg : String := "Cannot read property data of non-object"

/-- Message standing for a dangling heap id; unreachable from states built
by the model. -/
def internalErrMsg : String := "internal model error"

/-- Evaluator state: the heap of Variable cells, the heap of scope objects
(plain JS objects mapping names to Variable cells, modelled as string-keyed
association lists of their own properties), the heap of runtime objects,
the observable side-effect log of the natives, the value properties
assigned onto the host members every plain object inherits from the Object
prototype (one shared slot per inherited name, since those members are
global host objects), and fresh-id counters. -/
structure St where
  cells : List (Nat × JSVal) := []
  scopes : List (Nat × List (String × Nat)) := []
  objs : List (Nat × Obj) := []
  out : List JSVal := []
  hostProtoValues : List (String × JSVal) := []
  nextCell : Nat := 0
  nextScope : Nat := 0
  nextObj : Nat := 0

/-- Lookup in a string-keyed association list (a plain JS dictionary). -/
def alookup {α : Type} : List (String × α) → String → Option α
  | [], _ => none
  | (k2, v) :: rest, k => if k2 = k then some v else alookup rest k

/-- Update of a plain JS dictionary: replace in place or append. -/
def aset {α : Type} : List (String × α) → String → α → List (String × α)
  | [], k, v => [(k, v)]
  | (k2, v2) :: rest, k, v =>
    if k2 = k then (k, v) :: rest else (k2, v2) :: aset rest k v

/-- Deletion from a plain JS dictionary (the delete operator). -/
def adelete {α : Type} : List (String × α) → String → List (String × α)
  | [], _ => []
  | (k2, v2) :: rest, k =>
    if k2 = k then rest else (k2, v2) :: adelete rest k

/-- Lookup in a heap addressed by numeric ids. -/
def nlookup {α : Type} : List (Nat × α) → Nat → Option α
  | [], _ => none
  | (k2, v) :: rest, k => if k2 = k then some v else nlookup rest k

/-- Update of a heap addressed by numeric ids. -/
def nset {α : Type} : List (Nat × α) → Nat → α → List (Nat × α)
  | [], k, v => [(k, v)]
  | (k2, v2) :: rest, k, v =>
    if k2 = k then (k, v) :: rest else (k2, v2) :: nset rest k v

/-- Allocate a fresh Variable cell holding a value. -/
def allocCell (st : St) (v : JSVal) : St × Nat :=
  ({ st with cells := st.cells ++ [(st.nextCell, v)], nextCell := st.nextCell + 1 },
   st.nextCell)

/-- Allocate a fresh scope object with the given bindings. -/
def allocScope (st : St) (m : List (String × Nat)) : St × Nat :=
  ({ st with scopes := st.scopes ++ [(st.nextScope, m)], nextScope := st.nextScope + 1 },
   st.nextScope)

/-- Allocate a fresh runtime object. -/
def allocObj (st : St) (o : Obj) : St × Nat :=
  ({ st with objs := st.objs ++ [(st.nextObj, o)], nextObj := st.nextObj + 1 },
   st.nextObj)

/-- Overwrite the value stored in a Variable cell (the only mutation the
change operation performs). -/
def setCellV (st : St) (i : Nat) (v : JSVal) : St :=
  { st with cells := nset st.cells i v }

/-- Read a Variable cell (the value member of a Variable). -/
def stGetCell (st : St) (i : Nat) : JSVal :=
  (nlookup st.cells i).getD .undefined

/-- Bind a name to a cell in a scope object (property assignment on the
scope object). -/
def scopeSet (st : St) (sid : Nat) (k : String) (c : Nat) : St :=
  match nlookup st.scopes sid with
  | some m => { st with scopes := nset st.scopes sid (aset m k c) }
  | none => st

/-- The property names every plain JS object inherits from the host
Object prototype, per the ECMAScript standard.  A scope object is a plain
object literal, so the in operator and member access see these names even
when no binding exists.  The proto accessor is approximated like the other
members (its member read really yields the Object prototype itself;
second-order effects of assigning through it are outside the model, and no
claim exercises it). -/
def objectProtoNames : List String :=
  ["constructor", "hasOwnProperty", "isPrototypeOf", "propertyIsEnumerable",
   "toLocaleString", "toString", "valueOf", "__defineGetter__",
   "__defineSetter__", "__lookupGetter__", "__lookupSetter__", "__proto__"]

/-- Reading the value property of the host member a plain object inherits
under an Object-prototype name: undefined until a variable-change has
assigned it (the members are shared global host objects, so the slot is
global). -/
def hostProtoValue (st : St) (k : String) : JSVal :=
  (alookup st.hostProtoValues k).getD .undefined

/-- Assigning the value property of the host member a plain object
inherits under an Object-prototype name (what the variable-change branch
does when the name has no own binding but is inherited): silent, global,
and creating no scope binding. -/
def hostProtoSet (st : St) (k : String) (v : JSVal) : St :=
  { st with hostProtoValues := aset st.hostProtoValues k v }

/-- Overwrite the scopeVariables field of an LFunction (setScopeVariables). -/
def setObjScopeVars (st : St) (i : Nat) (sid : Nat) : St :=
  match nlookup st.objs i with
  | some o => { st with objs := nset st.objs i { o with scopeVariables := some sid } }
  | none => st

/-- Overwrite the whole data map of a runtime object. -/
def setObjDataMap (st : St) (i : Nat) (d : List (String × JSVal)) : St :=
  match nlookup st.objs i with
  | some o => { st with objs := nset st.objs i { o with data := d } }
  | none => st

/-- Data map of a runtime object, for stating theorems. -/
def objData (st : St) (i : Nat) : List (String × JSVal) :=
  match nlookup st.objs i with
  | some o => o.data
  | none => []

/-- A fresh LObject: empty data map, constructor tag lobject. -/
def mkLObject : Obj :=
  { ctor := .lobject, data := [], fn := none, scopeVariables := none,
    paramaterList := none, argumentScope := none }

/-- A fresh LArray: the constructor runs LObject's and then sets the data
key length to zero and the constructor tag to larray. -/
def mkLArray : Obj :=
  { ctor := .larray, data := [("length", .num (.int 0))], fn := none,
    scopeVariables := none, paramaterList := none, argumentScope := none }

/-- A fresh LFunction over an implementation: empty data map, fn set,
scopeVariables null, no paramaterList. -/
def mkLFunction (impl : FnImpl) : Obj :=
  { ctor := .lfunction, data := [], fn := some impl, scopeVariables := none,
    paramaterList := none, argumentScope := none }

/-- Reading index zero of a value (the dispatcher reads expression index
zero before anything else): throws on undefined and null, yields the head
of an array (undefined when empty), the first character of a string, and
undefined on every other value. -/
def jsIdx0 : JSVal → Except Err JSVal
  | .undefined => .error (.typeError idxOfUndefinedMsg)
  | .jsnull => .error (.typeError idxOfUndefinedMsg)
  | .arr xs => .ok (xs.headD .undefined)
  | .str s => .ok (if s.isEmpty then .undefined else .str (s.take 1))
  | _ => .ok .undefined

/-- Reading index i of a value (used for the fixed positions of each node
shape once index zero succeeded). -/
def jsIdx (e : JSVal) (i : Nat) : JSVal :=
  match e with
  | .arr xs => xs.getD i .undefined
  | _ => .undefined

/-- Test of the sequence shape: an array every element of which is an
array (an ordinary tagged node fails it because its head is a tag). -/
def isSeqB : JSVal → Bool
  | .arr xs => xs.all fun x => match x with | .arr _ => true | _ => false
  | _ => false

/-- JS subtraction of an integer constant, coercing the left operand with
the host Number conversion. -/
def jsSub (v : JSVal) (k : Int) : JNum :=
  match jsToNumber v with
  | .int i => .int (i - k)
  | .nan => .nan

/-- JS addition of an integer constant, coercing the left operand with the
host Number conversion. -/
def jsAdd (v : JSVal) (k : Int) : JNum :=
  match jsToNumber v with
  | .int i => .int (i + k)
  | .nan => .nan

/-- The prototype chain of each constructor, following the super links set
at the bottom of lib.js (LObject has super null, LArray and LFunction have
super LObject). -/
def protoChainL : Ctor → List Ctor
  | .lobject => [.lobject]
  | .larray => [.larray, .lobject]
  | .lfunction => [.lfunction, .lobject]

/-- The prototype table of each constructor, as populated at module load:
the object prototype is empty, the array prototype holds push and pop, the
function prototype holds debug; the entries are the heap ids of the
LFunction instances created at load (zero, one and two in the base heap). -/
def protoTableL : Ctor → List (String × Nat)
  | .lobject => []
  | .larray => [("push", 0), ("pop", 1)]
  | .lfunction => [("debug", 2)]

/-- The while loop of defaultGet: walk the super chain from the receiver's
own constructor outward and return the entry of the first prototype table
containing the key. -/
def chainFind (c : Ctor) (k : String) : Option Nat :=
  match (protoChainL c).find? (fun c2 => (alookup (protoTableL c2) k).isSome) with
  | some c2 => alookup (protoTableL c2) k
  | none => none

/-- The three LFunction instances created at module load for the prototype
tables: push, pop and debug. -/
def baseObjs : List (Nat × Obj) :=
  [(0, mkLFunction (.native .pushNF)),
   (1, mkLFunction (.native .popNF)),
   (2, mkLFunction (.native .debugNF))]

/-- lib.js defaultGet: stringify the key; return the own data entry when
present; otherwise walk the prototype chain, and when the matched entry is
an LFunction synthesize a fresh LFunction whose fn calls the entry's fn
with the receiver prepended (the bound-method wrapper); a miss everywhere
yields undefined, never an error.  The data map and the prototype-table
objects are modelled own-key-only: the host-inherited Object-prototype
names their in checks would also see are outside the model, and every
claim exercising this path uses concrete ordinary keys. -/
def defaultGet (st : St) (objId : Nat) (key : JSVal) : St × Except Err JSVal :=
  match nlookup st.objs objId with
  | none => (st, .error (.typeError internalErrMsg))
  | some o =>
    let ks := toJString key
    match alookup o.data ks with
    | some v => (st, .ok v)
    | none =>
      match chainFind o.ctor ks with
      | none => (st, .ok .undefined)
      | some pid =>
        match nlookup st.objs pid with
        | none => (st, .error (.typeError internalErrMsg))
        | some po =>
          if po.ctor = .lfunction then
            let (st2, bid) := allocObj st (mkLFunction (.native (.boundNF pid objId)))
            (st2, .ok (.token .lfunction bid))
          else
            (st, .ok (.token po.ctor pid))

/-- lib.js get: dispatch through the receiver's own get method; every
runtime object inherits defaultGet, every non-object value throws. -/
def getOp (st : St) (obj : JSVal) (key : JSVal) : St × Except Err JSVal :=
  match obj with
  | .token _ i => defaultGet st i key
  | _ => (st, .error (.typeError callNotFunctionMsg))

/-- lib.js defaultSet: write into the own data map under the stringified
key; never touches the prototype chain; returns the written value (the
value of the JS assignment expression). -/
def defaultSet (st : St) (objId : Nat) (key : JSVal) (v : JSVal) : St × Except Err JSVal :=
  match nlookup st.objs objId with
  | none => (st, .error (.typeError internalErrMsg))
  | some o =>
    ({ st with objs := nset st.objs objId { o with data := aset o.data (toJString key) v } },
     .ok v)

/-- lib.js set: dispatch through the receiver's own set method; every
runtime object inherits defaultSet, every non-object value throws. -/
def setOp (st : St) (obj : JSVal) (key : JSVal) (v : JSVal) : St × Except Err JSVal :=
  match obj with
  | .token _ i => defaultSet st i key v
  | _ => (st, .error (.typeError callNotFunctionMsg))

mutual

/-- interp.js evaluateExpression: the recursive dispatcher over tagged
nodes, with the branch order of the source: the comment check on index
zero first (which itself throws on undefined and null expressions), then
the array-of-arrays sequence shape, then the tagged shapes, and an
invalid-expression error for everything else.  The scope argument is the
variables parameter; none models passing undefined.  The variable read and
change branches see the host-inherited Object-prototype names of the plain
scope object: a read of such an unbound name yields the value property of
the inherited member instead of the lookup error, and a change assigns
that property silently instead of failing.  Fuel only bounds the recursion
depth of the model. -/
def evaluateExpression : Nat → JSVal → Option Nat → St → St × Except Err JSVal
  | 0, _, _, st => (st, .error .outOfFuel)
  | fuel+1, e, sc, st =>
    match jsIdx0 e with
    | .error er => (st, .error er)
    | .ok i0 =>
      match i0 with
      | .kind .comment => (st, .ok .undefined)
      | i0' =>
        if isSeqB e then
          match e with
          | .arr xs =>
            match evaluateEachExpression fuel xs sc st with
            | (st1, .error er) => (st1, .error er)
            | (st1, .ok vs) => (st1, .ok (.arr vs))
          | _ => (st, .error (.invalidExpressionType e))
        else
          match i0' with
          | .kind .functionCall =>
            match evaluateExpression fuel (jsIdx e 1) sc st with
            | (st1, .error er) => (st1, .error er)
            | (st1, .ok fnV) =>
              match jsIdx e 2 with
              | .arr argEs =>
                match evaluateEachExpression fuel argEs sc st1 with
                | (st2, .error er) => (st2, .error er)
                | (st2, .ok args) => call fuel fnV args st2
              | _ => (st1, .error (.typeError mapNotFunctionMsg))
          | .kind .varIdent =>
            match sc with
            | none => (st, .error (.typeError inOpUndefinedMsg))
            | some sid =>
              match nlookup st.scopes sid with
              | none => (st, .error (.typeError internalErrMsg))
              | some m =>
                let name := jsToString (jsIdx e 1)
                match alookup m name with
                | some c => (st, .ok (stGetCell st c))
                | none =>
                  if objectProtoNames.contains name then
                    (st, .ok (hostProtoValue st name))
                  else
                    (st, .error (.varNotFound name (m.map Prod.fst)))
          | .kind .varAssign =>
            match evaluateExpression fuel (jsIdx e 2) sc st with
            | (st1, .error er) => (st1, .error er)
            | (st1, .ok v) =>
              match sc with
              | none => (st1, .error (.typeError assignOnUndefinedMsg))
              | some sid =>
                let (st2, c) := allocCell st1 v
                (scopeSet st2 sid (jsToString (jsIdx e 1)) c, .ok .undefined)
          | .kind .varChange =>
            match evaluateExpression fuel (jsIdx e 2) sc st with
            | (st1, .error er) => (st1, .error er)
            | (st1, .ok v) =>
              match sc with
              | none => (st1, .error (.typeError inOpUndefinedMsg))
              | some sid =>
                match nlookup st1.scopes sid with
                | none => (st1, .error (.typeError internalErrMsg))
                | some m =>
                  match alookup m (jsToString (jsIdx e 1)) with
                  | some c => (setCellV st1 c v, .ok .undefined)
                  | none =>
                    if objectProtoNames.contains (jsToString (jsIdx e 1)) then
                      (hostProtoSet st1 (jsToString (jsIdx e 1)) v, .ok .undefined)
                    else
                      (st1, .error (.typeError cannotSetValueMsg))
          | .kind .functionPrim =>
            let (st1, fnId) := allocObj st (mkLFunction (.code (jsIdx e 2)))
            let baseAssoc :=
              match sc with
              | some sid => (nlookup st1.scopes sid).getD []
              | none => []
            let (st2, capId) := allocScope st1 baseAssoc
            (setObjScopeVars st2 fnId capId, .error (.typeError setArgab))
          | .kind .stringPrim => (st, .ok (toLString (jsIdx e 1)))
          | .kind .booleanPrim => (st, .ok (toLBoolean (jsIdx e 1)))
          | .kind .numberPrim => (st, .ok (toLNumber (jsIdx e 1)))
          | .kind .setPropId =>
            match evaluateExpression fuel (jsIdx e 1) sc st with
            | (st1, .error er) => (st1, .error er)
            | (st1, .ok obj) =>
              match evaluateExpression fuel (jsIdx e 3) sc st1 with
              | (st2, .error er) => (st2, .error er)
              | (st2, .ok v) =>
                match setOp st2 obj (jsIdx e 2) v with
                | (st3, .error er) => (st3, .error er)
                | (st3, .ok _) => (st3, .ok .undefined)
          | .kind .getPropId =>
            match evaluateExpression fuel (jsIdx e 1) sc st with
            | (st1, .error er) => (st1, .error er)
            | (st1, .ok obj) => getOp st1 obj (jsIdx e 2)
          | _ => (st, .error (.invalidExpressionType e))

/-- interp.js evaluateEachExpression: map the evaluator over a list of
expressions against one scope, left to right, an exception aborting the
rest. -/
def evaluateEachExpression : Nat → List JSVal → Option Nat → St → St × Except Err (List JSVal)
  | 0, _, _, st => (st, .error .outOfFuel)
  | _+1, [], _, st => (st, .ok [])
  | fuel+1, e :: rest, sc, st =>
    match evaluateExpression fuel e sc st with
    | (st1, .error er) => (st1, .error er)
    | (st1, .ok v) =>
      match evaluateEachExpression fuel rest sc st1 with
      | (st2, .error er) => (st2, .error er)
      | (st2, .ok vs) => (st2, .ok (v :: vs))

/-- lib.js call: invoke the receiver's own call method; only LFunction
instances have one (defaultCall), every other value throws. -/
def call : Nat → JSVal → List JSVal → St → St × Except Err JSVal
  | 0, _, _, st => (st, .error .outOfFuel)
  | fuel+1, fnV, args, st =>
    match fnV with
    | .token _ i =>
      match nlookup st.objs i with
      | some o =>
        match o.ctor with
        | .lfunction => defaultCall fuel i args st
        | _ => (st, .error (.typeError callNotFunctionMsg))
      | none => (st, .error (.typeError callNotFunctionMsg))
    | _ => (st, .error (.typeError callNotFunctionMsg))

/-- lib.js defaultCall.  A host-implemented fn receives the received
argument list mapped through evaluateExpression against the token's
argumentScope field (which nothing ever assigns) and is then invoked with
that mapped array as its single host argument.  A user-defined fn gets a
fresh scope copied shallowly from scopeVariables, the synthetic return
binding over a fresh pending-return cell initialized to null, the
parameter loop (reading paramaterList, whose absence makes the length
read throw), the body evaluated in full by evaluateEachExpression, and
finally the pending return cell as result. -/
def defaultCall : Nat → Nat → List JSVal → St → St × Except Err JSVal
  | 0, _, _, st => (st, .error .outOfFuel)
  | fuel+1, fnId, args, st =>
    match nlookup st.objs fnId with
    | none => (st, .error (.typeError internalErrMsg))
    | some o =>
      match o.fn with
      | some (.native nf) =>
        match evaluateEachExpression fuel args o.argumentScope st with
        | (st1, .error er) => (st1, .error er)
        | (st1, .ok vals) => runNative fuel nf [.arr vals] st1
      | some (.code body) =>
        let baseAssoc :=
          match o.scopeVariables with
          | some sid => (nlookup st.scopes sid).getD []
          | none => []
        let (st1, newSid) := allocScope st baseAssoc
        let (st2, retCell) := allocCell st1 .jsnull
        let (st3, retFnId) := allocObj st2 (mkLFunction (.native (.retNF retCell)))
        let (st4, retVar) := allocCell st3 (.token .lfunction retFnId)
        let st5 := scopeSet st4 newSid "return" retVar
        match o.paramaterList with
        | none => (st5, .error (.typeError lengthOfUndefinedMsg))
        | some ps =>
          match bindParams fuel ps args newSid o.argumentScope st5 with
          | (st6, .error er) => (st6, .error er)
          | (st6, .ok _) =>
            match body with
            | .arr bodyEs =>
              match evaluateEachExpression fuel bodyEs (some newSid) st6 with
              | (st7, .error er) => (st7, .error er)
              | (st7, .ok _) => (st7, .ok (stGetCell st7 retCell))
            | _ => (st6, .error (.typeError mapNotFunctionMsg))
      | none => (st, .error (.typeError internalErrMsg))

/-- The parameter loop of defaultCall: pair parameters with received
arguments positionally (missing arguments read as undefined, excess ones
are ignored).  A normal parameter evaluates its received argument through
evaluateExpression with an undefined variables argument (the source passes
no second argument there) and binds the result in a fresh cell; an
unevaluated parameter binds a fresh LFunction whose fn re-evaluates the
received argument against the token's argumentScope field; any other mode
binds nothing. -/
def bindParams : Nat → List Param → List JSVal → Nat → Option Nat → St → St × Except Err Unit
  | 0, _, _, _, _, st => (st, .error .outOfFuel)
  | _+1, [], _, _, _, st => (st, .ok ())
  | fuel+1, p :: ps, args, sid, argSc, st =>
    let value := args.headD .undefined
    if p.type = "normal" then
      match evaluateExpression fuel value none st with
      | (st1, .error er) => (st1, .error er)
      | (st1, .ok v) =>
        let (st2, c) := allocCell st1 v
        bindParams fuel ps args.tail sid argSc (scopeSet st2 sid p.name c)
    else if p.type = "unevaluated" then
      let (st1, lid) := allocObj st (mkLFunction (.native (.lazyNF value argSc)))
      let (st2, c) := allocCell st1 (.token .lfunction lid)
      bindParams fuel ps args.tail sid argSc (scopeSet st2 sid p.name c)
    else
      bindParams fuel ps args.tail sid argSc st

/-- Invocation of a host-implemented fn with its host argument list.  The
synthetic return closure destructures its first host argument and records
the head in the pending-return cell; the lazy thunk re-evaluates its
captured argument against the captured argumentScope; the bound wrapper
prepends its receiver and tail-calls the fn of its target; push and pop
mutate the receiver's data map exactly as the prototype methods do; debug
only logs; print and tick model excluded builtins observable through the
log. -/
def runNative : Nat → NativeFn → List JSVal → St → St × Except Err JSVal
  | 0, _, _, st => (st, .error .outOfFuel)
  | fuel+1, nf, jsArgs, st =>
    match nf with
    | .retNF c =>
      match jsArgs.headD .undefined with
      | .arr xs => (setCellV st c (xs.headD .undefined), .ok .undefined)
      | .str s =>
        (setCellV st c (if s.isEmpty then .undefined else .str (s.take 1)), .ok .undefined)
      | _ => (st, .error (.typeError notIterableMsg))
    | .lazyNF v sc => evaluateExpression fuel v sc st
    | .boundNF target receiver =>
      match nlookup st.objs target with
      | some to2 =>
        match to2.fn with
        | some (.native nf2) => runNative fuel nf2 (.token .lfunction receiver :: jsArgs) st
        | _ => (st, .error (.typeError fnNotFunctionMsg))
      | none => (st, .error (.typeError fnNotFunctionMsg))
    | .pushNF =>
      match jsArgs.headD .undefined with
      | .token _ selfId =>
        match nlookup st.objs selfId with
        | none => (st, .error (.typeError internalErrMsg))
        | some so =>
          let what := jsArgs.getD 1 .undefined
          let len := (alookup so.data "length").getD .undefined
          let d1 := aset so.data (jsToString len) what
          let len2 := (alookup d1 "length").getD .undefined
          let d2 := aset d1 "length" (.num (jsAdd len2 1))
          (setObjDataMap st selfId d2, .ok .undefined)
      | _ => (st, .error (.typeError dataOfNonObjectMsg))
    | .popNF =>
      match jsArgs.headD .undefined with
      | .token _ selfId =>
        match nlookup st.objs selfId with
        | none => (st, .error (.typeError internalErrMsg))
        | some so =>
          let len := (alookup so.data "length").getD .undefined
          let d1 := adelete so.data (jsToString (.num (jsSub len 1)))
          let len2 := (alookup d1 "length").getD .undefined
          let d2 := aset d1 "length" (.num (jsSub len2 1))
          (setObjDataMap st selfId d2, .ok .undefined)
      | _ => (st, .error (.typeError dataOfNonObjectMsg))
    | .debugNF => (st, .ok .undefined)
    | .printNF => ({ st with out := st.out ++ [jsArgs.headD .undefined] }, .ok .undefined)
    | .tickNF => ({ st with out := st.out ++ [.str "tick"] }, .ok .undefined)

end

/-- Own host properties of a runtime object instance: the fields assigned
in the class constructors of lib.js (data and the constructor tag for
every object, plus fn, scopeVariables, unevaluatedArgs and normalArgs for
LFunction, plus paramaterList and argumentScope once assigned). -/
def ownProps (o : Obj) : List String :=
  match o.ctor with
  | .lobject => ["data", "__constructor__"]
  | .larray => ["data", "__constructor__"]
  | .lfunction =>
    ["data", "__constructor__", "fn", "scopeVariables", "unevaluatedArgs", "normalArgs"]
      ++ (if o.paramaterList.isSome then ["paramaterList"] else [])
      ++ (if o.argumentScope.isSome then ["argumentScope"] else [])

/-- Host properties a runtime object inherits from its JS class prototype
chain: the methods declared by the classes of lib.js (and the constructor
slot every class prototype carries).  The names every JS object further
inherits from the host Object prototype are not modelled; the claims only
use ordinary keys, none of which collide with them. -/
def ctorProtoProps : Ctor → List String
  | .lobject => ["constructor", "__get__", "__set__"]
  | .larray => ["constructor", "__get__", "__set__"]
  | .lfunction =>
    ["constructor", "__call__", "setScopeVariables", "setParamaters", "toString",
     "__get__", "__set__"]

/-- lib.js has: the in operator applied to the runtime object itself, so
it tests the host properties of the instance, its class prototypes and the
host Object prototype, not the entries of the data map. -/
def has (st : St) (i : Nat) (key : JSVal) : Bool :=
  match nlookup st.objs i with
  | some o =>
    let k := toJString key
    (ownProps o).contains k || (ctorProtoProps o.ctor).contains k
      || objectProtoNames.contains k
  | none => false

/-- Shorthand for a variable-read node. -/
def readNode (n : String) : JSVal := .arr [.kind .varIdent, .str n]

/-- Shorthand for a function-call node. -/
def callNode (f : JSVal) (argList : List JSVal) : JSVal :=
  .arr [.kind .functionCall, f, .arr argList]

/-- Shorthand for a string-literal node. -/
def strNode (s : String) : JSVal := .arr [.kind .stringPrim, .str s]

/-- Shorthand for a variable-change node. -/
def chgNode (n : String) (v : JSVal) : JSVal := .arr [.kind .varChange, .str n, v]

/-- Shorthand for a variable-define node. -/
def defNode (n : String) (v : JSVal) : JSVal := .arr [.kind .varAssign, .str n, v]

/-- Shorthand for a property-get node with an identifier key. -/
def getPropNode (o : JSVal) (k : String) : JSVal :=
  .arr [.kind .getPropId, o, .str k]

/-- Shorthand for a function-literal node. -/
def fnNode (ps body : JSVal) : JSVal := .arr [.kind .functionPrim, ps, body]

/-- Updating a heap entry makes it visible to lookup at the same id. -/
theorem nlookup_nset {α : Type} (l : List (Nat × α)) (k : Nat) (v : α) :
    nlookup (nset l k v) k = some v := by
  induction l with
  | nil => simp [nset, nlookup]
  | cons hd tl ih =>
    by_cases h : hd.fst = k
    · simp [nset, nlookup, h]
    · simp [nset, nlookup, h, ih]

/-- Initial state for the first claim: the module-load heap, a native
print function (modelled from the spec: print is an excluded builtin) and
a top-level scope binding it. -/
def c1St : St :=
  { objs := baseObjs ++ [(3, mkLFunction (.native .printNF))],
    cells := [(0, .token .lfunction 3)],
    scopes := [(0, [("print", 0)])],
    nextCell := 1, nextScope := 1, nextObj := 4 }

/-- The program of the spec's own end-to-end scenario (and of the
repository's first test): a call of print with one string-literal
argument. -/
def c1Prog : JSVal := callNode (readNode ("print")) [strNode ("hello!")]

/-- C1: the claim says a function-call node evaluates only the function
expression eagerly and that for a native function every argument reaches
it evaluated exactly once.  On the code the call-site map evaluates the
argument to a StringPrim before invoking, and defaultCall then feeds that
StringPrim back into evaluateExpression, which rejects it: the call throws
InvalidExpressionType carrying the already-evaluated argument, the native
never runs (the log stays empty), and the repository's own test of this
very program expects it to print instead. -/
theorem c1_call_arguments_evaluated_at_call_site :
    (evaluateExpression 12 c1Prog (some 0) c1St).snd
        = .error (.invalidExpressionType (.sprim ("hello!")))
      ∧ (evaluateExpression 12 c1Prog (some 0) c1St).fst.out = [] :=
  ⟨rfl, rfl⟩

/-- Initial state for the second claim: a native tick function appending
to the log (modelled from the spec: a side-effect-observing native of the
excluded builtins), a function f with one unevaluated parameter and an
empty body, and a function f2 with one unevaluated parameter whose body
references the parameter as a call target once.  The two functions carry
paramaterList and scopeVariables as the excluded builtins collaborator
would set them through setParamaters and setScopeVariables. -/
def c2St : St :=
  { objs := baseObjs ++
      [(3, mkLFunction (.native .tickNF)),
       (4, { mkLFunction (.code (.arr [])) with
              paramaterList := some [⟨"x", "unevaluated"⟩],
              scopeVariables := some 1 }),
       (5, { mkLFunction (.code (.arr [callNode (readNode ("x")) []])) with
              paramaterList := some [⟨"x", "unevaluated"⟩],
              scopeVariables := some 1 })],
    cells := [(0, .token .lfunction 3), (1, .token .lfunction 4),
              (2, .token .lfunction 5)],
    scopes := [(0, [("tick", 0), ("f", 1), ("f2", 2)]), (1, [])],
    nextCell := 3, nextScope := 2, nextObj := 6 }

set_option maxHeartbeats 1000000

/-- C2: the claim says a lazy parameter's argument expression is evaluated
freshly once per reference and zero times when never referenced.  On the
code, calling f(tick()) with f never referencing its lazy parameter still
fires the side effect exactly once, because the call site evaluates every
argument eagerly; and calling f2(tick()), whose body references the
parameter once, does not re-evaluate the expression in the caller's scope
but re-evaluates the already-evaluated value against the never-assigned
argumentScope, throwing a TypeError after the single call-site tick. -/
theorem c2_lazy_parameter_side_effect_count :
    (evaluateExpression 12 (callNode (readNode ("f")) [callNode (readNode ("tick")) []])
        (some 0) c2St).snd = .ok .jsnull
      ∧ (evaluateExpression 12 (callNode (readNode ("f")) [callNode (readNode ("tick")) []])
        (some 0) c2St).fst.out = [.str ("tick")]
      ∧ (evaluateExpression 12 (callNode (readNode ("f2")) [callNode (readNode ("tick")) []])
        (some 0) c2St).snd = .error (.typeError idxOfUndefinedMsg)
      ∧ (evaluateExpression 12 (callNode (readNode ("f2")) [callNode (readNode ("tick")) []])
        (some 0) c2St).fst.out = [.str ("tick")] :=
  ⟨rfl, rfl, rfl, rfl⟩

/-- Body statement calling the synthetic return binding with one
string-literal argument. -/
def retCall : JSVal := callNode (readNode ("return")) [strNode ("hi")]

/-- Initial state for the third claim: g is a user-defined function whose
body calls its return binding with the string hi, g2 one with an empty
body; both with an empty captured scope and empty parameter list, built as
the excluded builtins collaborator would. -/
def c3St : St :=
  { objs := baseObjs ++
      [(3, { mkLFunction (.code (.arr [retCall])) with
              paramaterList := some [], scopeVariables := some 1 }),
       (4, { mkLFunction (.code (.arr [])) with
              paramaterList := some [], scopeVariables := some 1 })],
    cells := [(0, .token .lfunction 3), (1, .token .lfunction 4)],
    scopes := [(0, [("g", 0), ("g2", 1)]), (1, [])],
    nextCell := 2, nextScope := 2, nextObj := 5 }

/-- C3: the claim says the call's result is the argument of the last
return invocation, null when return was never invoked.  On the code,
invoking the synthetic return with an argument crashes the whole call: the
argument is evaluated at the call site of return, and the native branch of
defaultCall re-evaluates the resulting StringPrim as an expression,
throwing InvalidExpressionType, so no value is ever recorded.  Only the
never-invoked half of the claim holds: a body without return calls yields
null. -/
theorem c3_return_value_recording :
    (evaluateExpression 12 (callNode (readNode ("g")) []) (some 0) c3St).snd
        = .error (.invalidExpressionType (.sprim ("hi")))
      ∧ (evaluateExpression 12 (callNode (readNode ("g2")) []) (some 0) c3St).snd
        = .ok .jsnull :=
  ⟨rfl, rfl⟩

/-- Initial state for the fourth claim: the module-load heap plus a fresh
LObject (id three) and a fresh LArray (id four). -/
def c4St : St :=
  { objs := baseObjs ++ [(3, mkLObject), (4, mkLArray)], nextObj := 5 }

/-- The state after set(o, x, 1) on the fresh LObject. -/
def c4St2 : St := (defaultSet c4St 3 (.str ("x")) (.num (.int 1))).fst

/-- C4: the claim says has(o, k) is true exactly when k is in the object's
own data map, in particular true immediately after set(o, k, v).  On the
code has tests the in operator on the host object itself, so after
set(o, x, 1) it still answers false for x although the data map holds x,
while answering true for the implementation field data, which is in no
data map; the prototype half of the claim (push on a fresh array is
false) holds. -/
theorem c4_has_ignores_data_map :
    has c4St2 3 (.str ("x")) = false
      ∧ alookup (objData c4St2 3) ("x") = some (.num (.int 1))
      ∧ has c4St2 3 (.str ("data")) = true
      ∧ alookup (objData c4St2 3) ("data") = none
      ∧ has c4St 4 (.str ("push")) = false :=
  ⟨rfl, rfl, rfl, rfl, rfl⟩

/-- Initial state for the fifth claim: one empty top-level scope. -/
def c5St : St := { scopes := [(0, [])], nextScope := 1 }

/-- C5: the claim says evaluating a function-literal node returns the
function object without failing.  On the code the node constructs the
LFunction and captures the scope snapshot, but then calls setArguments,
which lib.js does not define (it defines setParamaters), so every
function-literal evaluation throws a TypeError; the half-built function is
left in the heap with its body and captured scope but no parameter list. -/
theorem c5_function_literal_throws :
    (evaluateExpression 12 (fnNode (.arr []) (.arr [])) (some 0) c5St).snd
        = .error (.typeError setArgab)
      ∧ nlookup (evaluateExpression 12 (fnNode (.arr []) (.arr [])) (some 0) c5St).fst.objs 0
        = some { ctor := .lfunction, data := [], fn := some (.code (.arr [])),
                 scopeVariables := some 1, paramaterList := none,
                 argumentScope := none } :=
  ⟨rfl, rfl⟩

/-- Initial state for the sixth claim's counterexample: one empty
top-level scope. -/
def c6St : St := { scopes := [(0, [])], nextScope := 1 }

/-- C6 counterexample: the claim says mutating an undefined name fails
with a lookup error identifying the variable name.  On the code the
failure is the host TypeError with the fixed message about setting the
value property of undefined: it is not the evaluator's lookup error (which
is the varNotFound form thrown by variable reads) and it is bitwise the
same for two different missing names, so it cannot identify the name. -/
theorem c6_counterexample :
    evaluateExpression 5 (chgNode ("x") (strNode ("v"))) (some 0) c6St
        = (c6St, .error (.typeError cannotSetValueMsg))
      ∧ evaluateExpression 5 (chgNode ("someOtherName") (strNode ("v"))) (some 0) c6St
        = (c6St, .error (.typeError cannotSetValueMsg)) :=
  ⟨rfl, rfl⟩

/-- C6 (amended): mutating a name with no cell in the current scope and
not among the host Object-prototype property names fails, but with the
fixed, name-independent host TypeError rather than a lookup error naming
the variable; mutating a missing name that IS an Object-prototype property
name (such as toString) does not fail at all: it silently assigns the
value property of the shared inherited host member and creates no scope
binding; when the cell exists the mutation overwrites that cell in place,
so the new value is visible through every alias of the cell (here: any
other scope binding the name to the same cell). -/
theorem c6_change_mutation (fuel : Nat) (st : St) (sid sid2 : Nat)
    (m m2 : List (String × Nat)) (x y t : String) (c : Nat) (s : String)
    (hm : nlookup st.scopes sid = some m)
    (hx : alookup m x = none)
    (hxp : x ∉ objectProtoNames)
    (hy : alookup m y = some c)
    (hm2 : nlookup st.scopes sid2 = some m2)
    (hy2 : alookup m2 y = some c)
    (ht : alookup m t = none)
    (htp : t ∈ objectProtoNames) :
    evaluateExpression (fuel+2) (chgNode x (strNode s)) (some sid) st
        = (st, .error (.typeError cannotSetValueMsg))
      ∧ evaluateExpression (fuel+2) (chgNode y (strNode s)) (some sid) st
        = (setCellV st c (.sprim s), .ok .undefined)
      ∧ evaluateExpression (fuel+1) (readNode y) (some sid2) (setCellV st c (.sprim s))
        = (setCellV st c (.sprim s), .ok (.sprim s))
      ∧ evaluateExpression (fuel+2) (chgNode t (strNode s)) (some sid) st
        = (hostProtoSet st t (.sprim s), .ok .undefined)
      ∧ nlookup (hostProtoSet st t (.sprim s)).scopes sid = some m := by
  refine ⟨?_, ?_, ?_, ?_, ?_⟩
  · simp [evaluateExpression, chgNode, strNode, jsIdx0, jsIdx, isSeqB, jsToString,
      jsAtomStr, toLString, hm, hx, hxp]
  · simp [evaluateExpression, chgNode, strNode, jsIdx0, jsIdx, isSeqB, jsToString,
      jsAtomStr, toLString, hm, hy]
  · simp [evaluateExpression, readNode, jsIdx0, jsIdx, isSeqB, jsToString, jsAtomStr,
      setCellV, hm2, hy2, stGetCell, nlookup_nset]
  · simp [evaluateExpression, chgNode, strNode, jsIdx0, jsIdx, isSeqB, jsToString,
      jsAtomStr, toLString, hm, ht, htp]
  · simp [hostProtoSet, hm]

/-- Witness state for the sixth claim: two scopes aliasing the single cell
of the name y. -/
def c6wSt : St :=
  { scopes := [(0, [("y", 0)]), (1, [("y", 0)])],
    cells := [(0, .undefined)], nextScope := 2, nextCell := 1 }

/-- Witness for C6 at a concrete input: x missing and uninherited, y
aliased by two scopes, toString missing but inherited. -/
theorem c6_change_mutation_witness :
    evaluateExpression 2 (chgNode ("x") (strNode ("v"))) (some 0) c6wSt
        = (c6wSt, .error (.typeError cannotSetValueMsg))
      ∧ evaluateExpression 2 (chgNode ("y") (strNode ("v"))) (some 0) c6wSt
        = (setCellV c6wSt 0 (.sprim ("v")), .ok .undefined)
      ∧ evaluateExpression 1 (readNode ("y")) (some 1) (setCellV c6wSt 0 (.sprim ("v")))
        = (setCellV c6wSt 0 (.sprim ("v")), .ok (.sprim ("v")))
      ∧ evaluateExpression 2 (chgNode ("toString") (strNode ("v"))) (some 0) c6wSt
        = (hostProtoSet c6wSt ("toString") (.sprim ("v")), .ok .undefined)
      ∧ nlookup (hostProtoSet c6wSt ("toString") (.sprim ("v"))).scopes 0
        = some [("y", 0)] :=
  c6_change_mutation 0 c6wSt 0 1 [("y", 0)] [("y", 0)] ("x") ("y") ("toString") 0 ("v")
    rfl rfl (by decide) rfl rfl rfl rfl (by decide)

/-- Witness and counterexample state for the seventh claim: a scope
binding a to a cell holding the number seven; b and toString are unbound. -/
def c7wSt : St :=
  { scopes := [(0, [("a", 0)])], cells := [(0, .num (.int 7))],
    nextScope := 1, nextCell := 1 }

/-- C7 counterexample: the claim says every name absent from the current
scope fails with a lookup error naming it.  The name toString has no
binding in the scope, yet the read does not fail: the in operator sees the
member every plain object inherits from the host Object prototype, and the
branch returns that member's value property, which is undefined. -/
theorem c7_counterexample :
    evaluateExpression 1 (readNode ("toString")) (some 0) c7wSt
      = (c7wSt, .ok .undefined) := rfl

/-- C7 (amended): a variable-read node for a name with no cell in the
current scope and not among the host Object-prototype property names fails
with the lookup error carrying exactly the missing name (the source throws
the string interpolating the name and the scope's key list); for a bound
name it returns the value stored in that name's cell; for an unbound name
that IS an Object-prototype property name it returns the value property of
the inherited host member (undefined unless a variable-change assigned it)
instead of failing. -/
theorem c7_variable_read (fuel : Nat) (st : St) (sid : Nat)
    (m : List (String × Nat)) (name : String)
    (hm : nlookup st.scopes sid = some m) :
    (alookup m name = none → name ∉ objectProtoNames →
      evaluateExpression (fuel+1) (readNode name) (some sid) st
        = (st, .error (.varNotFound name (m.map Prod.fst))))
      ∧ (∀ c, alookup m name = some c →
      evaluateExpression (fuel+1) (readNode name) (some sid) st
        = (st, .ok (stGetCell st c)))
      ∧ (alookup m name = none → name ∈ objectProtoNames →
      evaluateExpression (fuel+1) (readNode name) (some sid) st
        = (st, .ok (hostProtoValue st name))) := by
  refine ⟨?_, ?_, ?_⟩
  · intro hx hxp
    simp [evaluateExpression, readNode, jsIdx0, jsIdx, isSeqB, jsToString, jsAtomStr,
      hm, hx, hxp]
  · intro c hc
    simp [evaluateExpression, readNode, jsIdx0, jsIdx, isSeqB, jsToString, jsAtomStr, hm, hc]
  · intro hx hxp
    simp [evaluateExpression, readNode, jsIdx0, jsIdx, isSeqB, jsToString, jsAtomStr,
      hm, hx, hxp]

/-- Witness for C7 at concrete inputs: the missing uninherited name b
produces the lookup error naming b, the bound name a reads its cell, and
the missing inherited name toString reads undefined without failing. -/
theorem c7_variable_read_witness :
    evaluateExpression 1 (readNode ("b")) (some 0) c7wSt
        = (c7wSt, .error (.varNotFound ("b") ["a"]))
      ∧ evaluateExpression 1 (readNode ("a")) (some 0) c7wSt
        = (c7wSt, .ok (.num (.int 7)))
      ∧ evaluateExpression 1 (readNode ("toString")) (some 0) c7wSt
        = (c7wSt, .ok .undefined) :=
  ⟨(c7_variable_read 0 c7wSt 0 [("a", 0)] ("b") rfl).1 rfl (by decide),
   (c7_variable_read 0 c7wSt 0 [("a", 0)] ("a") rfl).2.1 0 rfl,
   (c7_variable_read 0 c7wSt 0 [("a", 0)] ("toString") rfl).2.2 rfl (by decide)⟩

/-- C8 counterexample: the claim says that for every raw host boolean b
the conversion toJBoolean returns b itself; on the code toJBoolean of the
raw host boolean true is false, because only a BooleanPrim wrapping true
ever converts to true. -/
theorem c8_counterexample : toJBoolean (.bool true) = false := rfl

/-- C8 (amended): toJString, toJBoolean and toJNumber are total; toJString
and toJNumber accept a wrapper or a raw host value and normalize either to
the host representation; toJBoolean normalizes BooleanPrim wrappers (it
returns the wrapped value) but maps every raw host value, including the
raw boolean true, to false, so it agrees with the raw boolean only at
false. -/
theorem c8_conversions (s : String) (n : JNum) (b : Bool) :
    toJString (.sprim s) = s
      ∧ toJString (.str s) = s
      ∧ toJNumber (.nprim n) = n
      ∧ toJNumber (.num n) = n
      ∧ toJBoolean (.bprim b) = b
      ∧ toJBoolean (.bool b) = false :=
  ⟨rfl, rfl, rfl, rfl, rfl, rfl⟩

/-- C9: for each primitive wrapper, reading after writing a value yields
the canonical host coercion of that value to the wrapper's kind, and the
coercion is idempotent: writing back an already coerced value stores the
same thing, so a wrapper can never observably hold a value of the wrong
kind. -/
theorem c9_wrapper_coercion (v : JSVal) :
    stringPrimGetStr (stringPrimSetStr v) = jsToString v
      ∧ stringPrimSetStr (.str (stringPrimSetStr v)) = stringPrimSetStr v
      ∧ booleanPrimGetBool (booleanPrimSetBool v) = jsToBool v
      ∧ booleanPrimSetBool (.bool (booleanPrimSetBool v)) = booleanPrimSetBool v
      ∧ numberPrimGetNum (numberPrimSetNum v) = jsToNumber v
      ∧ numberPrimSetNum (.num (numberPrimSetNum v)) = numberPrimSetNum v :=
  ⟨rfl, rfl, rfl, rfl, rfl, rfl⟩

/-- Initial state for the tenth claim: the module-load heap, a fresh empty
LArray and a scope binding it to the name a. -/
def c10St : St :=
  { objs := baseObjs ++ [(3, mkLArray)],
    cells := [(0, .token .larray 3)],
    scopes := [(0, [("a", 0)])],
    nextCell := 1, nextScope := 1, nextObj := 4 }

/-- The program calling pop on the empty array through the full machinery:
property get synthesizes the bound method, the call runs it. -/
def c10Prog : JSVal := callNode (getPropNode (readNode ("a")) ("pop")) []

/-- C10: pop on an LArray of length zero deletes the absent entry at the
stringified index minus-one (the data map gains no such key) and
unconditionally decrements length, leaving it equal to minus one; the call
completes without failing and returns undefined. -/
theorem c10_pop_empty_array :
    (evaluateExpression 12 c10Prog (some 0) c10St).snd = .ok .undefined
      ∧ alookup (objData (evaluateExpression 12 c10Prog (some 0) c10St).fst 3) ("length")
        = some (.num (.int (-1)))
      ∧ alookup (objData (evaluateExpression 12 c10Prog (some 0) c10St).fst 3) ("-1")
        = none :=
  ⟨rfl, rfl, rfl⟩

end TLang
